import Mathlib

/-
Verification of the pattern-matching multiple-dispatch library
(`multimethods.py` and `patmat.py`) against its specification.

The embedding models the Python runtime shallowly:
- `Value` is the universe of Python values the library manipulates
  (None, booleans, integers, strings, lists, tuples, dicts, and objects
  with named attributes);
- raised exceptions are modelled with `Except PyError`;
- a pattern/predicate object is identified with its `__match__` method,
  a function `Value → Except PyError Value` (`PatObj`);
- a registered implementation is a callable `PyFunc` receiving the
  positional and keyword arguments.
-/

/-- Keys of a Python dict must be hashable, which excludes lists and dicts.
`True`/`False` hash and compare equal to `1`/`0`, so booleans are folded
into integers. -/
inductive KeyV where
  | kNone : KeyV
  | kInt : Int → KeyV
  | kStr : String → KeyV
  deriving DecidableEq

/-- Model of the Python values the library manipulates. -/
inductive Value where
  | none : Value
  | bool : Bool → Value
  | int : Int → Value
  | str : String → Value
  | list : List Value → Value
  | tuple : List Value → Value
  | dict : List (KeyV × Value) → Value
  | obj : List (String × Value) → Value

/-- Exceptions raised by the code under verification. `MatchFailure` is the
pattern-failure signal from `patmat.py`; `DispatchFailure` carries the
generic function's name and the call's actual arguments
(`multimethods.py`, lines 56-68). -/
inductive PyError where
  | matchFailure : PyError
  | keyError : PyError
  | indexError : PyError
  | typeError : PyError
  | attributeError : PyError
  | dispatchFailure : String → List Value → List (String × Value) → PyError

/-- Python truthiness, as used by `all(...)` in `multimethod.dispatch`. -/
def truthy : Value → Bool
  | .none => false
  | .bool b => b
  | .int n => n != 0
  | .str s => !s.isEmpty
  | .list xs => !xs.isEmpty
  | .tuple xs => !xs.isEmpty
  | .dict es => !es.isEmpty
  | .obj _ => true

/-- Values usable as a sequence index (`int`, with `bool` as 0/1). -/
def asIndex : Value → Option Int
  | .int n => some n
  | .bool b => some (if b then 1 else 0)
  | _ => Option.none

/-- Conversion of a value to a dict key; `Option.none` means unhashable
(`x[k]` then raises `TypeError`). -/
def toKey : Value → Option KeyV
  | .none => some .kNone
  | .bool b => some (.kInt (if b then 1 else 0))
  | .int n => some (.kInt n)
  | .str s => some (.kStr s)
  | _ => Option.none

/-- Python's sequence-index normalisation: a negative index counts from the
end; an index that is still negative, or not below the length, is out of
range. -/
def normIndex (n : Nat) (i : Int) : Option Nat :=
  if i < 0 then
    if i + n < 0 then Option.none else some (i + n).toNat
  else
    if i < n then some i.toNat else Option.none

/-- Sequence subscription with Python's negative-index convention:
out-of-range indices raise `IndexError`. -/
def seqGet (xs : List Value) (i : Int) : Except PyError Value :=
  match normIndex xs.length i with
  | some j =>
    match xs.get? j with
    | some v => .ok v
    | Option.none => .error .indexError
  | Option.none => .error .indexError

/-- String subscription yields a one-character string. -/
def strGet (s : String) (i : Int) : Except PyError Value :=
  match normIndex s.data.length i with
  | some j =>
    match s.data.get? j with
    | some c => .ok (.str (String.mk [c]))
    | Option.none => .error .indexError
  | Option.none => .error .indexError

/-- Model of Python subscription `x[k]`: `KeyError` for an absent dict key,
`IndexError` for an out-of-range sequence index, `TypeError` for an
unsubscriptable value, an unhashable dict key, or a non-integer sequence
index. -/
def getitem (x k : Value) : Except PyError Value :=
  match x with
  | .dict es =>
    match toKey k with
    | Option.none => .error .typeError
    | some kv =>
      match es.find? (fun e => e.1 == kv) with
      | some e => .ok e.2
      | Option.none => .error .keyError
  | .list xs =>
    match asIndex k with
    | some i => seqGet xs i
    | Option.none => .error .typeError
  | .tuple xs =>
    match asIndex k with
    | some i => seqGet xs i
    | Option.none => .error .typeError
  | .str s =>
    match asIndex k with
    | some i => strGet s i
    | Option.none => .error .typeError
  | _ => .error .typeError

/-- Model of Python attribute access `getattr(x, a)`: looks up a named
attribute on an object, raising `AttributeError` when it is absent or the
value carries no such attribute. -/
def getattr_ (x : Value) (a : String) : Except PyError Value :=
  match x with
  | .obj attrs =>
    match attrs.find? (fun e => e.1 == a) with
    | some e => .ok e.2
    | Option.none => .error .attributeError
  | _ => .error .attributeError

/-- Python classes the `Type` predicates test with `isinstance`; `bool` is a
subclass of `int` in Python. -/
inductive PyType where
  | pNone | pBool | pInt | pStr | pList | pTuple | pDict | pObj
  deriving DecidableEq

/-- Model of `isinstance` over the value universe. -/
def isinstance : Value → PyType → Bool
  | .none, t => t == .pNone
  | .bool _, t => t == .pBool || t == .pInt
  | .int _, t => t == .pInt
  | .str _, t => t == .pStr
  | .list _, t => t == .pList
  | .tuple _, t => t == .pTuple
  | .dict _, t => t == .pDict
  | .obj _, t => t == .pObj

/-- A pattern or predicate object, identified with its `__match__` method:
it consumes a value and returns a derived value or raises. -/
abbrev PatObj : Type := Value → Except PyError Value

/-- A registered implementation: a Python callable applied to the call's
positional and keyword arguments. -/
abbrev PyFunc : Type := List Value → List (String × Value) → Except PyError Value

namespace patmat

/-- Embedding of `patmat.match_except(*exceptions)` (lines 171-179): run the
body and turn exactly the selected exceptions into `MatchFailure`; every
other exception propagates unchanged. -/
def match_except (sel : PyError → Bool) (r : Except PyError Value) : Except PyError Value :=
  match r with
  | .error e => if sel e then .error .matchFailure else .error e
  | .ok v => .ok v

/-- Exception selector for `match_except(KeyError, TypeError)`. -/
def keySel : PyError → Bool
  | .keyError => true
  | .typeError => true
  | _ => false

/-- Exception selector for `match_except(AttributeError)`. -/
def attrSel : PyError → Bool
  | .attributeError => true
  | _ => false

/-- Embedding of `patmat.Key(key).__match__`: `return x[self.key]` under
`match_except(KeyError, TypeError)`. -/
def Key (key : Value) : PatObj := fun x =>
  match_except keySel (getitem x key)

/-- Sequential evaluation of `tuple(x[k] for k in keys)`: the first raised
exception aborts the tuple construction. -/
def getitems (x : Value) : List Value → Except PyError (List Value)
  | [] => pure []
  | k :: ks => do
    let v ← getitem x k
    let vs ← getitems x ks
    pure (v :: vs)

/-- Embedding of `patmat.Keys(keys).__match__` (lines 193-201). -/
def Keys (keys : List Value) : PatObj := fun x =>
  match_except keySel ((getitems x keys).map Value.tuple)

/-- Embedding of `patmat.Attr(attribute).__match__`: `getattr(x, attribute)`
under `match_except(AttributeError)`. -/
def Attr (attrName : String) : PatObj := fun x =>
  match_except attrSel (getattr_ x attrName)

/-- Sequential evaluation of `tuple(getattr(x, a) for a in attributes)`. -/
def getattrs (x : Value) : List String → Except PyError (List Value)
  | [] => pure []
  | a :: rest => do
    let v ← getattr_ x a
    let vs ← getattrs x rest
    pure (v :: vs)

/-- Embedding of `patmat.Attrs(*attributes).__match__` (lines 215-223). -/
def Attrs (attributes : List String) : PatObj := fun x =>
  match_except attrSel ((getattrs x attributes).map Value.tuple)

/-- Embedding of `patmat.ismatch(value, pattern)` (lines 238-244): evaluate
the pattern, catch exactly `MatchFailure` as `False`; any other exception
propagates. -/
def ismatch (value : Value) (p : PatObj) : Except PyError Bool :=
  match p value with
  | .ok _ => .ok true
  | .error .matchFailure => .ok false
  | .error e => .error e

/-- Embedding of `patmat.predicate_method` (lines 251-258): wrap a boolean
test into a `__match__` that returns the argument unchanged on a true test
and raises `MatchFailure` otherwise. -/
def predicate_method (f : Value → Except PyError Bool) : PatObj := fun x => do
  let b ← f x
  if b then pure x else .error .matchFailure

/-- Embedding of `patmat.Type(t).__match__` (lines 399-407); named `TypePat`
because `Type` is reserved in Lean. -/
def TypePat (t : PyType) : PatObj :=
  predicate_method (fun x => pure (isinstance x t))

/-- Length of the Python pair `(a, b)`; used to transcribe the tuple literal
in `patmat.OneOf.__match__`. -/
def pairLen {α β : Type} (_ : α) (_ : β) : Nat := 2

/-- Embedding of `patmat.OneOf(*predicates).__match__` (lines 386-396). The
source computes `len(tuple((partial(ismatch, x), self.predicates))) == 1`:
the tuple literal has exactly two components (the partially applied
`ismatch` closure and the predicates attribute), so the test compares 2
with 1 for every input. -/
def OneOf (predicates : List PatObj) : PatObj :=
  predicate_method (fun x =>
    pure (pairLen (fun p => ismatch x p) predicates == 1))

/-- Modelled from the spec: `_ignore = const(None)` uses `const` from the
missing `basics` module; per the spec the wildcard "always returns a
null/void marker", so this is the constant-`None` function. -/
def _ignore : Value → Except PyError Value := fun _ => pure Value.none

/-- Embedding of `patmat.pattern` (lines 226-231). In the source this is a
function definition, `def pattern(Pattern):`, not a class: its body only
defines the local functions `__init__` and `__match__` and then falls off
the end, so a call `pattern(f)` returns `None` rather than a pattern
object. `Option PatObj` records that outcome: `Option.none` is Python's
`None`. -/
def pattern (_func : Value → Except PyError Value) : Option PatObj :=
  Option.none

/-- Embedding of `patmat.ignore = pattern(_ignore)` (lines 234-235). -/
def ignore : Option PatObj := pattern _ignore

/-- Attribute access `p.__match__(x)` on a possibly-`None` object: `None`
has no `__match__` attribute, so the access raises `AttributeError`. -/
def getMatchAttr (p : Option PatObj) (x : Value) : Except PyError Value :=
  match p with
  | Option.none => .error .attributeError
  | some q => q x

end patmat

namespace multimethods

/-- Embedding of `multimethods.ismatch(value, predicate)` (lines 6-11, the
same definition is written twice in the source): it returns
`predicate.__match__(value)` unchanged, with no exception handling. -/
def ismatch (value : Value) (p : PatObj) : Except PyError Value := p value

/-- Count of the truthy results in the generator expression
`tuple(True for p in predicates if ismatch(x, p))`; an exception raised by
a subpredicate aborts the whole construction. -/
def countTruthy (x : Value) : List PatObj → Except PyError Nat
  | [] => pure 0
  | p :: rest => do
    let r ← ismatch x p
    let n ← countTruthy x rest
    pure (if truthy r then n + 1 else n)

/-- Embedding of `multimethods.OneOf(*predicates).__match__` (lines 38-44):
`len(tuple(True for p in self.predicates if ismatch(x, p))) == 1`. -/
def OneOf (predicates : List PatObj) : PatObj := fun x => do
  let n ← countTruthy x predicates
  pure (.bool (n == 1))

/-- Embedding of `multimethods.Type(t).__match__` (lines 47-53); named
`TypePat` because `Type` is reserved in Lean. -/
def TypePat (t : PyType) : PatObj := fun x =>
  pure (.bool (isinstance x t))

/-- A dispatch key of the registry: the tuple of positional spec tokens
paired with the sorted tuple of (keyword name, spec token) pairs. `σ` is
the type of spec tokens, on which the registry imposes no constraint. -/
abbrev MKey (σ : Type) : Type := List σ × List (String × σ)

/-- Lexicographic code-point comparison of strings, as Python's `sorted`
compares the keyword names. -/
def strLeAux : List Char → List Char → Bool
  | [], _ => true
  | _ :: _, [] => false
  | c :: cs, d :: ds =>
    if c.toNat < d.toNat then true
    else if d.toNat < c.toNat then false
    else strLeAux cs ds

/-- String comparison used by `sorted(kwspecs.items())`. -/
def strLe (a b : String) : Bool := strLeAux a.data b.data

/-- Insertion step of the sort over keyword-spec pairs. -/
def insKw {σ : Type} (p : String × σ) : List (String × σ) → List (String × σ)
  | [] => [p]
  | q :: rest => if strLe p.1 q.1 then p :: q :: rest else q :: insKw p rest

/-- Embedding of `tuple(sorted(kwspecs.items()))`: the keyword-spec pairs
sorted by keyword name (dict keys are unique, so names never tie). -/
def sortKw {σ : Type} : List (String × σ) → List (String × σ)
  | [] => []
  | p :: rest => insKw p (sortKw rest)

/-- Equality of dispatch keys, as Python compares the key tuples with `==`
when an `OrderedDict` entry is assigned. -/
def beqKey {σ : Type} [BEq σ] (k1 k2 : MKey σ) : Bool :=
  k1.1 == k2.1 && k1.2 == k2.2

/-- Embedding of `multimethod.add_method` (lines 83-84):
`self._methods[(specs, tuple(sorted(kwspecs.items())))] = method`. The
registry is the `OrderedDict` in insertion order; assigning an existing
key replaces the stored value in place, assigning a new key appends. -/
def add_method {σ : Type} [BEq σ] (methods : List (MKey σ × PyFunc))
    (specs : List σ) (kwspecs : List (String × σ)) (method : PyFunc) :
    List (MKey σ × PyFunc) :=
  if methods.any (fun e => beqKey e.1 (specs, sortKw kwspecs)) then
    methods.map (fun e => if beqKey e.1 (specs, sortKw kwspecs) then (e.1, method) else e)
  else
    methods ++ [((specs, sortKw kwspecs), method)]

/-- Lookup of a keyword argument; `Option.none` models the `KeyError` that
`kwargs[k]` raises when the name is absent. -/
def lookupStr (kwargs : List (String × Value)) (k : String) : Option Value :=
  (kwargs.find? (fun e => e.1 == k)).map (fun e => e.2)

/-- Embedding of `all(ismatch(arg, dispatcher(p)) for (arg, p) in
zip(args, specs))` (line 94): sequential, short-circuiting on the first
falsy result; an exception raised by a pattern propagates. -/
def posMatch {σ : Type} (dispatcher : σ → PatObj) :
    List (Value × σ) → Except PyError Bool
  | [] => pure true
  | (arg, p) :: rest => do
    let r ← ismatch arg (dispatcher p)
    if truthy r then posMatch dispatcher rest else pure false

/-- Embedding of `all(ismatch(kwargs[k], dispatcher(p)) for k, p in
kwspecs)` (line 95): `kwargs[k]` raises `KeyError` when the call did not
pass keyword `k`. -/
def kwMatch {σ : Type} (dispatcher : σ → PatObj) (kwargs : List (String × Value)) :
    List (String × σ) → Except PyError Bool
  | [] => pure true
  | (k, p) :: rest =>
    match lookupStr kwargs k with
    | Option.none => .error .keyError
    | some v => do
      let r ← ismatch v (dispatcher p)
      if truthy r then kwMatch dispatcher kwargs rest else pure false

/-- The entry test of line 94-95: the positional conjunction, then (only if
it held, as `and` short-circuits) the keyword conjunction. -/
def tryEntry {σ : Type} (dispatcher : σ → PatObj) (args : List Value)
    (kwargs : List (String × Value)) (key : MKey σ) : Except PyError Bool := do
  let pok ← posMatch dispatcher (args.zip key.1)
  if pok then kwMatch dispatcher kwargs key.2 else pure false

/-- The registry walk of `multimethod.dispatch` (lines 93-98), additionally
reporting which entry was selected: the first entry whose test is truthy
is returned; when the walk completes, `DispatchFailure(self, args, kwargs)`
is raised with the generic's name and the call's actual arguments. -/
def dispatchEntry {σ : Type} (dispatcher : σ → PatObj) (name : String)
    (methods : List (MKey σ × PyFunc)) (args : List Value)
    (kwargs : List (String × Value)) : Except PyError (MKey σ × PyFunc) :=
  match methods with
  | [] => .error (.dispatchFailure name args kwargs)
  | e :: rest => do
    let ok ← tryEntry dispatcher args kwargs e.1
    if ok then pure e else dispatchEntry dispatcher name rest args kwargs

/-- Embedding of `multimethod.dispatch` (lines 89-98) after the dispatcher
has been resolved: the method of the selected entry. -/
def dispatch {σ : Type} (dispatcher : σ → PatObj) (name : String)
    (methods : List (MKey σ × PyFunc)) (args : List Value)
    (kwargs : List (String × Value)) : Except PyError PyFunc :=
  (dispatchEntry dispatcher name methods args kwargs).map (fun e => e.2)

/-- Embedding of lines 90-91. Modelled from the spec for the fallback:
`identity` comes from the missing `basics` module and is the identity
function, so when `self._dispatch(*args, **kwargs)` returns `None` the
spec tokens are used directly as predicate objects. -/
def resolveDispatcher (d : Option (PatObj → PatObj)) : PatObj → PatObj :=
  match d with
  | Option.none => id
  | some f => f

/-- Embedding of `multimethod.__call__` (lines 78-81): dispatch, then invoke
the selected method on the call's arguments. -/
def call {σ : Type} (dispatcher : σ → PatObj) (name : String)
    (methods : List (MKey σ × PyFunc)) (args : List Value)
    (kwargs : List (String × Value)) : Except PyError Value := do
  let method ← dispatch dispatcher name methods args kwargs
  method args kwargs

/-- Spec tokens as the untyped tuple trees Python compares with `==`: an
atom is an opaque token (a class, a string, ...), and a tuple is encoded
as a right-nested chain, `(a, b)` being `consT a (consT b nilT)`, so that
chain equality coincides with componentwise tuple equality. This encoding
is needed by `get_method`, which compares a bare tuple of spec tokens
against the registry's composite keys. -/
inductive Tok where
  | atom : String → Tok
  | nilT : Tok
  | consT : Tok → Tok → Tok
  deriving DecidableEq

/-- A Python tuple of tokens. -/
def toTup (xs : List Tok) : Tok := xs.foldr Tok.consT Tok.nilT

/-- The dispatch key `(specs, tuple(sorted(kwspecs.items())))` as the Python
tuple it is: a pair of the specs tuple and the tuple of (name, token)
pairs. -/
def keyTok (k : MKey Tok) : Tok :=
  toTup [toTup k.1, toTup (k.2.map (fun e => toTup [Tok.atom e.1, e.2]))]

/-- Embedding of `multimethod.get_method(specs)` (lines 86-87):
`self._methods.get(specs)` looks the bare specs tuple up among keys that
are (specs, kwspecs) pairs, comparing the two tuples with Python `==`. -/
def get_method (methods : List (MKey Tok × PyFunc)) (specs : List Tok) :
    Option PyFunc :=
  (methods.find? (fun e => toTup specs == keyTok e.1)).map (fun e => e.2)

end multimethods

/-- An always-true predicate object, `predicate(lambda x: True)` in the
multimethods predicate protocol. -/
def pTrue : PatObj := fun _ => .ok (Value.bool true)

/-- A predicate object whose test succeeds while deriving the null marker,
the behaviour the spec intends for the wildcard. -/
def pNone : PatObj := fun _ => .ok Value.none

/-- An implementation returning the constant integer `n`. -/
def fConst (n : Int) : PyFunc := fun _ _ => .ok (Value.int n)

/-- An implementation returning its first positional argument. -/
def firstArg : PyFunc := fun args _ => .ok (args.headD Value.none)

example : patmat.Key (Value.str "a") (Value.dict [(.kStr "a", .int 5)]) = .ok (Value.int 5) := rfl
example : patmat.Key (Value.str "a") (Value.dict []) = .error .matchFailure := rfl
example : patmat.Key (Value.str "a") (Value.int 3) = .error .matchFailure := rfl
example : patmat.Key (Value.int 1) (Value.list [Value.int 0]) = .error .indexError := rfl
example : patmat.Attr "x" (Value.int 3) = .error .matchFailure := rfl
example : patmat.ignore = Option.none := rfl
example : patmat.OneOf [patmat.TypePat .pInt] (Value.int 1) = .error .matchFailure := rfl
example : patmat.ismatch (Value.int 1) (patmat.TypePat .pInt) = .ok true := rfl

example :
    multimethods.call id "g" [(([pTrue], []), fConst 7)] [Value.int 0] [] = .ok (Value.int 7) := rfl
example :
    multimethods.call id "g" [] [Value.int 0] []
      = .error (.dispatchFailure "g" [Value.int 0] []) := rfl
example :
    multimethods.call id "g" [(([pNone], []), fConst 7)] [Value.int 0] []
      = .error (.dispatchFailure "g" [Value.int 0] []) := rfl
example :
    multimethods.call id "g" [(([patmat.Attr "x"], []), fConst 7), (([pTrue], []), fConst 8)]
      [Value.int 0] [] = .error .matchFailure := rfl
example :
    multimethods.call id "g" [(([], [("k", pTrue)]), fConst 7)] [Value.int 0] []
      = .error .keyError := rfl
example :
    multimethods.OneOf [pTrue, patmat.TypePat .pInt] (Value.int 1) = .ok (Value.bool false) := rfl
example :
    multimethods.OneOf [pTrue] (Value.str "") = .ok (Value.bool true) := rfl
example :
    multimethods.sortKw [("b", 1), ("a", 2)] = [("a", 2), ("b", 1)] := rfl
example :
    multimethods.get_method
      (multimethods.add_method [] [multimethods.Tok.atom "int", multimethods.Tok.atom "int"] [] (fConst 3))
      [multimethods.Tok.atom "int", multimethods.Tok.atom "int"] = Option.none := rfl

/-- A predicate object whose test is false on every value. -/
def pFalse : PatObj := fun _ => .ok (Value.bool false)

theorem except_bind_ok {α β : Type} (a : α) (f : α → Except PyError β) :
    (Except.ok a : Except PyError α) >>= f = f a := rfl

theorem except_bind_error {α β : Type} (e : PyError) (f : α → Except PyError β) :
    (Except.error e : Except PyError α) >>= f = .error e := rfl

theorem except_map_ok {α β : Type} (f : α → β) (a : α) :
    (Except.ok a : Except PyError α).map f = .ok (f a) := rfl

theorem except_map_error {α β : Type} (f : α → β) (e : PyError) :
    (Except.error e : Except PyError α).map f = .error e := rfl

/-- Unfolding the registry walk one entry at a time. -/
theorem dispatchEntry_cons {σ : Type} (d : σ → PatObj) (name : String)
    (e : multimethods.MKey σ × PyFunc) (rest : List (multimethods.MKey σ × PyFunc))
    (args : List Value) (kwargs : List (String × Value)) :
    multimethods.dispatchEntry d name (e :: rest) args kwargs
      = (multimethods.tryEntry d args kwargs e.1) >>= (fun ok =>
          if ok then pure e else multimethods.dispatchEntry d name rest args kwargs) := rfl

/-- The walk selects the first entry whose test is truthy, provided every
earlier entry's test returned false. -/
theorem dispatchEntry_first_match {σ : Type} (d : σ → PatObj) (name : String)
    (pre : List (multimethods.MKey σ × PyFunc)) (e : multimethods.MKey σ × PyFunc)
    (post : List (multimethods.MKey σ × PyFunc)) (args : List Value)
    (kwargs : List (String × Value))
    (hpre : ∀ e2 ∈ pre, multimethods.tryEntry d args kwargs e2.1 = .ok false)
    (he : multimethods.tryEntry d args kwargs e.1 = .ok true) :
    multimethods.dispatchEntry d name (pre ++ e :: post) args kwargs = .ok e := by
  induction pre with
  | nil =>
    rw [List.nil_append, dispatchEntry_cons, he, except_bind_ok]
    rfl
  | cons e2 pre2 ih =>
    have h2 : multimethods.tryEntry d args kwargs e2.1 = .ok false :=
      hpre e2 (by simp)
    rw [List.cons_append, dispatchEntry_cons, h2, except_bind_ok]
    simpa using ih (fun e3 h3 => hpre e3 (by simp [h3]))

/-- When every entry's test returns false, the walk raises `DispatchFailure`
carrying the generic's name and the call's arguments. -/
theorem dispatchEntry_all_fail {σ : Type} (d : σ → PatObj) (name : String)
    (methods : List (multimethods.MKey σ × PyFunc)) (args : List Value)
    (kwargs : List (String × Value))
    (hall : ∀ e2 ∈ methods, multimethods.tryEntry d args kwargs e2.1 = .ok false) :
    multimethods.dispatchEntry d name methods args kwargs
      = .error (.dispatchFailure name args kwargs) := by
  induction methods with
  | nil => rfl
  | cons e2 rest ih =>
    have h2 : multimethods.tryEntry d args kwargs e2.1 = .ok false :=
      hall e2 (by simp)
    rw [dispatchEntry_cons, h2, except_bind_ok]
    simpa using ih (fun e3 h3 => hall e3 (by simp [h3]))

/-- Replacing the stored implementations without touching the keys commutes
with the registry walk: the same entry position is selected, because the
entry test reads only the key. -/
theorem dispatchEntry_map_values {σ : Type} (d : σ → PatObj) (name : String)
    (methods : List (multimethods.MKey σ × PyFunc)) (args : List Value)
    (kwargs : List (String × Value)) (g : multimethods.MKey σ × PyFunc → PyFunc) :
    multimethods.dispatchEntry d name (methods.map (fun e => (e.1, g e))) args kwargs
      = (multimethods.dispatchEntry d name methods args kwargs).map (fun e => (e.1, g e)) := by
  induction methods with
  | nil => rfl
  | cons e rest ih =>
    rw [List.map_cons, dispatchEntry_cons, dispatchEntry_cons]
    cases h : multimethods.tryEntry d args kwargs e.1 with
    | error err => rfl
    | ok b =>
      cases b with
      | true => rfl
      | false => exact ih

/-- The call path in terms of the selected entry. -/
theorem call_eq_entry {σ : Type} (d : σ → PatObj) (name : String)
    (methods : List (multimethods.MKey σ × PyFunc)) (args : List Value)
    (kwargs : List (String × Value)) :
    multimethods.call d name methods args kwargs
      = match multimethods.dispatchEntry d name methods args kwargs with
        | .ok e => e.2 args kwargs
        | .error err => .error err := by
  cases h : multimethods.dispatchEntry d name methods args kwargs with
  | ok e =>
    simp only [multimethods.call, multimethods.dispatch, h, except_map_ok, except_bind_ok]
  | error err =>
    simp only [multimethods.call, multimethods.dispatch, h, except_map_error, except_bind_error]

/-- C1 (amended): the selected implementation is invoked with the original
positional and keyword arguments of the call; the derived values the
patterns produced are used only for their truthiness and then discarded. -/
theorem call_invokes_original_arguments {σ : Type} (dispatcher : σ → PatObj)
    (name : String) (methods : List (multimethods.MKey σ × PyFunc))
    (args : List Value) (kwargs : List (String × Value)) (f : PyFunc)
    (h : multimethods.dispatch dispatcher name methods args kwargs = .ok f) :
    multimethods.call dispatcher name methods args kwargs = f args kwargs := by
  simp only [multimethods.call, h, except_bind_ok]

/-- Witness for C1: a one-entry generic whose implementation echoes its first
argument; dispatch selects it and the call passes the original argument. -/
theorem call_invokes_original_arguments_witness :
    multimethods.call id "g" [(([pTrue], []), firstArg)] [Value.int 3] []
      = firstArg [Value.int 3] [] :=
  call_invokes_original_arguments id "g" [(([pTrue], []), firstArg)]
    [Value.int 3] [] firstArg rfl

/-- C1 (counterexample): with a `Key` pattern deriving `5` from the argument
`{"a": 5}`, the call returns the implementation applied to the original
dict, not to the derived value `5` as the claim states. -/
theorem call_not_transformed_cex :
    multimethods.call id "g" [(([patmat.Key (Value.str "a")], []), firstArg)]
        [Value.dict [(.kStr "a", .int 5)]] []
      = .ok (Value.dict [(.kStr "a", .int 5)])
    ∧ patmat.Key (Value.str "a") (Value.dict [(.kStr "a", .int 5)]) = .ok (Value.int 5)
    ∧ firstArg [Value.int 5] [] = .ok (Value.int 5)
    ∧ Value.dict [(.kStr "a", .int 5)] ≠ Value.int 5 :=
  ⟨rfl, rfl, rfl, fun h => Value.noConfusion h⟩

/-- C2 (amended): if the entries before the first matching entry all evaluate
to a non-match without raising, the call returns the result of the
earliest-registered matching implementation; if every entry evaluates to a
non-match without raising, the call fails with `DispatchFailure` carrying
the generic's name and the call's actual arguments. -/
theorem call_first_match_or_dispatch_failure {σ : Type} (dispatcher : σ → PatObj)
    (name : String) (methods : List (multimethods.MKey σ × PyFunc))
    (args : List Value) (kwargs : List (String × Value)) :
    (∀ pre e post, methods = pre ++ e :: post →
        (∀ e2 ∈ pre, multimethods.tryEntry dispatcher args kwargs e2.1 = .ok false) →
        multimethods.tryEntry dispatcher args kwargs e.1 = .ok true →
        multimethods.call dispatcher name methods args kwargs = e.2 args kwargs)
    ∧ ((∀ e2 ∈ methods, multimethods.tryEntry dispatcher args kwargs e2.1 = .ok false) →
        multimethods.call dispatcher name methods args kwargs
          = .error (.dispatchFailure name args kwargs)) := by
  constructor
  · intro pre e post hm hpre he
    subst hm
    rw [call_eq_entry, dispatchEntry_first_match dispatcher name pre e post args kwargs hpre he]
  · intro hall
    rw [call_eq_entry, dispatchEntry_all_fail dispatcher name methods args kwargs hall]

/-- Witness for C2: with a non-matching first entry, the call returns the
second (earliest matching) implementation's result; on an empty registry it
raises `DispatchFailure` with the call's arguments. -/
theorem call_first_match_or_dispatch_failure_witness :
    multimethods.call id "w" [(([pFalse], []), fConst 1), (([pTrue], []), fConst 7)]
        [Value.int 4] [] = fConst 7 [Value.int 4] []
    ∧ multimethods.call id "w" [(([pFalse], []), fConst 1)] [Value.int 4] []
        = .error (.dispatchFailure "w" [Value.int 4] []) := by
  constructor
  · refine (call_first_match_or_dispatch_failure id "w"
      [(([pFalse], []), fConst 1), (([pTrue], []), fConst 7)] [Value.int 4] []).1
      [(([pFalse], []), fConst 1)] (([pTrue], []), fConst 7) [] rfl ?_ rfl
    intro e2 h2
    rw [List.mem_singleton.mp h2]
    rfl
  · refine (call_first_match_or_dispatch_failure id "w"
      [(([pFalse], []), fConst 1)] [Value.int 4] []).2 ?_
    intro e2 h2
    rw [List.mem_singleton.mp h2]
    rfl

/-- C2 (counterexample): the second entry matches and its implementation
would return `7`, yet the call raises the `MatchFailure` that the first
entry's `Key` pattern produced on the integer argument, instead of
returning the earliest matching implementation's result. -/
theorem earliest_match_preempted_cex :
    multimethods.tryEntry id [Value.int 1] [] (([pTrue], ([] : List (String × PatObj)))) = .ok true
    ∧ multimethods.call id "g"
        [(([patmat.Key (Value.str "k")], []), fConst 1), (([pTrue], []), fConst 7)]
        [Value.int 1] [] = .error .matchFailure
    ∧ (Except.error PyError.matchFailure : Except PyError Value) ≠ .ok (Value.int 7) :=
  ⟨rfl, rfl, fun h => Except.noConfusion h⟩

/-- C3 (amended): a match failure signalled by a falsy `__match__` return
value makes dispatch skip the entry and proceed with the remaining entries
in registration order, but a `MatchFailure` exception raised while testing
an entry propagates out of the dispatch engine to the caller. -/
theorem falsy_skip_exception_escape {σ : Type} (dispatcher : σ → PatObj) (name : String)
    (e : multimethods.MKey σ × PyFunc) (rest : List (multimethods.MKey σ × PyFunc))
    (args : List Value) (kwargs : List (String × Value)) :
    (multimethods.tryEntry dispatcher args kwargs e.1 = .ok false →
      multimethods.dispatch dispatcher name (e :: rest) args kwargs
        = multimethods.dispatch dispatcher name rest args kwargs)
    ∧ ∀ err, multimethods.tryEntry dispatcher args kwargs e.1 = .error err →
      multimethods.dispatch dispatcher name (e :: rest) args kwargs = .error err := by
  constructor
  · intro h
    simp [multimethods.dispatch, dispatchEntry_cons, h, except_bind_ok]
  · intro err h
    simp [multimethods.dispatch, dispatchEntry_cons, h, except_bind_error, except_map_error]

/-- Witness for C3: a falsy-testing first entry is skipped in favour of the
second, while an entry whose pattern raises `MatchFailure` makes dispatch
itself raise `MatchFailure`. -/
theorem falsy_skip_exception_escape_witness :
    multimethods.dispatch id "w" [(([pFalse], []), fConst 1), (([pTrue], []), fConst 2)]
        [Value.int 0] []
      = multimethods.dispatch id "w" [(([pTrue], []), fConst 2)] [Value.int 0] []
    ∧ multimethods.dispatch id "w" [(([patmat.Attr "y"], []), fConst 1)] [Value.int 0] []
      = .error .matchFailure := by
  constructor
  · exact (falsy_skip_exception_escape id "w" (([pFalse], []), fConst 1)
      [(([pTrue], []), fConst 2)] [Value.int 0] []).1 rfl
  · exact (falsy_skip_exception_escape id "w" (([patmat.Attr "y"], []), fConst 1)
      [] [Value.int 0] []).2 .matchFailure rfl

/-- C3 (counterexample): an `Attr` pattern raises `MatchFailure` on an
integer argument; with that entry registered first, the call propagates
the `MatchFailure` to the caller instead of skipping the entry, although
the second entry matches on its own. -/
theorem match_failure_escapes_cex :
    patmat.Attr "x" (Value.int 0) = .error .matchFailure
    ∧ multimethods.call id "g"
        [(([patmat.Attr "x"], []), fConst 1), (([pTrue], []), fConst 2)] [Value.int 0] []
      = .error .matchFailure
    ∧ multimethods.call id "g" [(([pTrue], []), fConst 2)] [Value.int 0] []
      = .ok (Value.int 2) :=
  ⟨rfl, rfl, rfl⟩

/-- C4 (amended): when an entry declares a keyword spec under a name the
call's keyword arguments do not include, and the entry's positional specs
succeed, the lookup `kwargs[k]` raises `KeyError`, which propagates to the
caller: the entry is not skipped and no later entry is tried. -/
theorem missing_kw_raises_keyerror {σ : Type} (dispatcher : σ → PatObj) (name : String)
    (specs : List σ) (k : String) (p : σ) (kwrest : List (String × σ)) (f : PyFunc)
    (rest : List (multimethods.MKey σ × PyFunc)) (args : List Value)
    (kwargs : List (String × Value))
    (hpos : multimethods.posMatch dispatcher (args.zip specs) = .ok true)
    (hmiss : multimethods.lookupStr kwargs k = Option.none) :
    multimethods.call dispatcher name (((specs, (k, p) :: kwrest), f) :: rest) args kwargs
      = .error .keyError := by
  have htry : multimethods.tryEntry dispatcher args kwargs (specs, (k, p) :: kwrest)
      = .error .keyError := by
    simp [multimethods.tryEntry, hpos, multimethods.kwMatch, hmiss, except_bind_ok]
  have hde : multimethods.dispatchEntry dispatcher name
      (((specs, (k, p) :: kwrest), f) :: rest) args kwargs = .error .keyError := by
    rw [dispatchEntry_cons]
    simp [htry, except_bind_error]
  rw [call_eq_entry, hde]

/-- Witness for C4: an entry with keyword spec `k` and a call without
keyword `k` makes the call raise `KeyError`. -/
theorem missing_kw_raises_keyerror_witness :
    multimethods.call id "w" [((([] : List PatObj), [("k", pTrue)]), fConst 1)] [] []
      = .error .keyError :=
  missing_kw_raises_keyerror id "w" [] "k" pTrue [] (fConst 1) [] [] [] rfl rfl

/-- C4 (counterexample): the entry declaring keyword spec `k` is not skipped
when the call passes no keyword `k`: the call raises `KeyError`, although
the later entry would match and return `2`. -/
theorem missing_kw_not_skipped_cex :
    multimethods.call id "g"
        [(([], [("k", pTrue)]), fConst 1), (([pTrue], []), fConst 2)] [Value.int 5] []
      = .error .keyError
    ∧ multimethods.call id "g" [(([pTrue], []), fConst 2)] [Value.int 5] []
      = .ok (Value.int 2) :=
  ⟨rfl, rfl⟩

/-- C5: registering under a dispatch key already present replaces the stored
implementation in place: the key sequence (iteration order) is unchanged,
and the registry walk selects the same entry as before, now carrying the
later implementation exactly when the selected key is the re-registered
one. -/
theorem reregistration_in_place {σ : Type} [BEq σ]
    (methods : List (multimethods.MKey σ × PyFunc)) (specs : List σ)
    (kwspecs : List (String × σ)) (f : PyFunc)
    (hpresent : methods.any
      (fun e => multimethods.beqKey e.1 (specs, multimethods.sortKw kwspecs)) = true) :
    (multimethods.add_method methods specs kwspecs f).map Prod.fst = methods.map Prod.fst
    ∧ ∀ (dispatcher : σ → PatObj) (name : String) (args : List Value)
        (kwargs : List (String × Value)),
        multimethods.dispatchEntry dispatcher name
            (multimethods.add_method methods specs kwspecs f) args kwargs
          = (multimethods.dispatchEntry dispatcher name methods args kwargs).map
              (fun e => if multimethods.beqKey e.1 (specs, multimethods.sortKw kwspecs)
                then (e.1, f) else e) := by
  have hrw : multimethods.add_method methods specs kwspecs f
      = methods.map (fun e =>
          if multimethods.beqKey e.1 (specs, multimethods.sortKw kwspecs)
          then (e.1, f) else e) := by
    simp only [multimethods.add_method]
    rw [if_pos hpresent]
  have hfun : (fun e : multimethods.MKey σ × PyFunc =>
        if multimethods.beqKey e.1 (specs, multimethods.sortKw kwspecs) then (e.1, f) else e)
      = (fun e => (e.1,
          if multimethods.beqKey e.1 (specs, multimethods.sortKw kwspecs) then f else e.2)) := by
    funext e
    by_cases h : multimethods.beqKey e.1 (specs, multimethods.sortKw kwspecs) <;> simp [h]
  constructor
  · rw [hrw, List.map_map]
    have : (Prod.fst ∘ fun e : multimethods.MKey σ × PyFunc =>
          if multimethods.beqKey e.1 (specs, multimethods.sortKw kwspecs) then (e.1, f) else e)
        = Prod.fst := by
      funext e
      by_cases h : multimethods.beqKey e.1 (specs, multimethods.sortKw kwspecs) <;>
        simp [h, Function.comp]
    rw [this]
  · intro dispatcher name args kwargs
    rw [hrw, hfun]
    exact dispatchEntry_map_values dispatcher name methods args kwargs
      (fun e => if multimethods.beqKey e.1 (specs, multimethods.sortKw kwspecs) then f else e.2)

/-- Witness for C5: re-registering the key `([0], ())` replaces the stored
implementation without changing the key order, and the walk reflects
exactly that replacement. -/
theorem reregistration_in_place_witness :
    (multimethods.add_method [(([0], []), fConst 1)] [0] [] (fConst 2)).map Prod.fst
        = [((([0] : List Nat), ([] : List (String × Nat))), fConst 1)].map Prod.fst
    ∧ multimethods.dispatchEntry (fun _ : Nat => pTrue) "w"
        (multimethods.add_method [(([0], []), fConst 1)] [0] [] (fConst 2)) [Value.int 9] []
      = (multimethods.dispatchEntry (fun _ : Nat => pTrue) "w"
          [(([0], []), fConst 1)] [Value.int 9] []).map
          (fun e => if multimethods.beqKey e.1 ([0], multimethods.sortKw []) then (e.1, fConst 2)
            else e) := by
  have h := reregistration_in_place [(([0], []), fConst 1)] [0] [] (fConst 2) (by rfl)
  exact ⟨h.1, h.2 (fun _ => pTrue) "w" [Value.int 9] []⟩

/-- C6: the wildcard is broken at definition site. `patmat.pattern` is a
`def`, not a `class`, so `ignore = pattern(_ignore)` is Python `None`, and
any attempt to use the wildcard as a pattern raises `AttributeError`
instead of succeeding with a null marker. -/
theorem ignore_is_none_bug :
    patmat.ignore = Option.none
    ∧ patmat.getMatchAttr patmat.ignore (Value.int 0) = .error .attributeError :=
  ⟨rfl, rfl⟩

/-- C7: `patmat.OneOf.__match__` measures the length of the two-element
tuple `(partial(ismatch, x), self.predicates)` instead of counting the
succeeding subpredicates, so it raises `MatchFailure` for every input —
in particular on an input where exactly one subpattern succeeds. -/
theorem patmat_oneof_always_fails_bug :
    (∀ (ps : List PatObj) (x : Value), patmat.OneOf ps x = .error .matchFailure)
    ∧ patmat.ismatch (Value.int 1) (patmat.TypePat .pInt) = .ok true :=
  ⟨fun _ _ => rfl, rfl⟩

/-- C7 supporting fact: the `multimethods.OneOf` variant does implement the
exactly-one semantics on truthy results. -/
theorem multimethods_oneof_counts :
    multimethods.OneOf [] (Value.int 0) = .ok (Value.bool false)
    ∧ multimethods.OneOf [pTrue] (Value.int 0) = .ok (Value.bool true)
    ∧ multimethods.OneOf [pTrue, pTrue] (Value.int 0) = .ok (Value.bool false) :=
  ⟨rfl, rfl, rfl⟩

/-- The result is a success, an ordinary match failure, or a leaked
`IndexError`. -/
def okFailOrIndex (r : Except PyError Value) : Prop :=
  (∃ u, r = .ok u) ∨ r = .error .matchFailure ∨ r = .error .indexError

/-- The result is a success or an ordinary match failure. -/
def okOrFail (r : Except PyError Value) : Prop :=
  (∃ u, r = .ok u) ∨ r = .error .matchFailure

/-- Every error the computation can raise satisfies `P`. -/
def errIn {α : Type} (r : Except PyError α) (P : PyError → Prop) : Prop :=
  ∀ e, r = .error e → P e

/-- The errors `x[k]` can raise. -/
def keyTypeIndex (e : PyError) : Prop :=
  e = .keyError ∨ e = .typeError ∨ e = .indexError

theorem except_pure_eq {α : Type} (a : α) : (pure a : Except PyError α) = .ok a := rfl

theorem errIn_bind {α β : Type} (m : Except PyError α) (f : α → Except PyError β)
    (P : PyError → Prop) (hm : errIn m P) (hf : ∀ a, errIn (f a) P) :
    errIn (m >>= f) P := by
  intro e he
  cases m with
  | error e2 =>
    rw [except_bind_error] at he
    have h2 : e2 = e := Except.error.inj he
    subst h2
    exact hm e2 rfl
  | ok a =>
    rw [except_bind_ok] at he
    exact hf a e he

theorem errIn_map {α β : Type} (m : Except PyError α) (g : α → β)
    (P : PyError → Prop) (hm : errIn m P) : errIn (m.map g) P := by
  intro e he
  cases m with
  | error e2 =>
    rw [except_map_error] at he
    cases he
    exact hm e rfl
  | ok a => rw [except_map_ok] at he; cases he

theorem seqGet_errIn (xs : List Value) (i : Int) :
    errIn (seqGet xs i) (fun e => e = .indexError) := by
  intro e he
  cases hn : normIndex xs.length i with
  | none => simp only [seqGet, hn] at he; cases he; rfl
  | some j =>
    cases hg : xs.get? j with
    | some v => simp only [seqGet, hn, hg] at he; cases he
    | none => simp only [seqGet, hn, hg] at he; cases he; rfl

theorem strGet_errIn (s : String) (i : Int) :
    errIn (strGet s i) (fun e => e = .indexError) := by
  intro e he
  cases hn : normIndex s.data.length i with
  | none => simp only [strGet, hn] at he; cases he; rfl
  | some j =>
    cases hg : s.data.get? j with
    | some c => simp only [strGet, hn, hg] at he; cases he
    | none => simp only [strGet, hn, hg] at he; cases he; rfl

theorem getitem_errIn (x k : Value) : errIn (getitem x k) keyTypeIndex := by
  intro e he
  cases x with
  | dict es =>
    cases htk : toKey k with
    | none => simp only [getitem, htk] at he; cases he; exact Or.inr (Or.inl rfl)
    | some kv =>
      cases hf : es.find? (fun e => e.1 == kv) with
      | none =>
        simp only [getitem, htk, hf] at he
        cases he; exact Or.inl rfl
      | some p => simp only [getitem, htk, hf] at he; cases he
  | list xs =>
    simp only [getitem] at he
    cases hai : asIndex k with
    | none => rw [hai] at he; cases he; exact Or.inr (Or.inl rfl)
    | some i =>
      rw [hai] at he
      exact Or.inr (Or.inr (seqGet_errIn xs i e he))
  | tuple xs =>
    simp only [getitem] at he
    cases hai : asIndex k with
    | none => rw [hai] at he; cases he; exact Or.inr (Or.inl rfl)
    | some i =>
      rw [hai] at he
      exact Or.inr (Or.inr (seqGet_errIn xs i e he))
  | str s =>
    simp only [getitem] at he
    cases hai : asIndex k with
    | none => rw [hai] at he; cases he; exact Or.inr (Or.inl rfl)
    | some i =>
      rw [hai] at he
      exact Or.inr (Or.inr (strGet_errIn s i e he))
  | none => cases he; exact Or.inr (Or.inl rfl)
  | bool b => cases he; exact Or.inr (Or.inl rfl)
  | int n => cases he; exact Or.inr (Or.inl rfl)
  | obj attrs => cases he; exact Or.inr (Or.inl rfl)

theorem getitems_errIn (x : Value) (ks : List Value) :
    errIn (patmat.getitems x ks) keyTypeIndex := by
  induction ks with
  | nil => intro e he; cases he
  | cons k ks ih =>
    simp only [patmat.getitems]
    exact errIn_bind _ _ _ (getitem_errIn x k)
      (fun v => errIn_bind _ _ _ ih (fun vs e he => by cases he))

theorem getattr_errIn (x : Value) (a : String) :
    errIn (getattr_ x a) (fun e => e = .attributeError) := by
  intro e he
  cases x with
  | obj attrs =>
    simp only [getattr_] at he
    cases hf : attrs.find? (fun e => e.1 == a) with
    | none => rw [hf] at he; cases he; rfl
    | some p => rw [hf] at he; cases he
  | none => cases he; rfl
  | bool b => cases he; rfl
  | int n => cases he; rfl
  | str s => cases he; rfl
  | list xs => cases he; rfl
  | tuple xs => cases he; rfl
  | dict es => cases he; rfl

theorem getattrs_errIn (x : Value) (attrs : List String) :
    errIn (patmat.getattrs x attrs) (fun e => e = .attributeError) := by
  induction attrs with
  | nil => intro e he; cases he
  | cons a rest ih =>
    simp only [patmat.getattrs]
    exact errIn_bind _ _ _ (getattr_errIn x a)
      (fun v => errIn_bind _ _ _ ih (fun vs e he => by cases he))

theorem match_except_key_shape (r : Except PyError Value)
    (hr : errIn r keyTypeIndex) :
    okFailOrIndex (patmat.match_except patmat.keySel r) := by
  cases r with
  | ok u => exact Or.inl ⟨u, rfl⟩
  | error e =>
    rcases hr e rfl with h | h | h <;> subst h
    · exact Or.inr (Or.inl rfl)
    · exact Or.inr (Or.inl rfl)
    · exact Or.inr (Or.inr rfl)

theorem match_except_attr_shape (r : Except PyError Value)
    (hr : errIn r (fun e => e = .attributeError)) :
    okOrFail (patmat.match_except patmat.attrSel r) := by
  cases r with
  | ok u => exact Or.inl ⟨u, rfl⟩
  | error e =>
    have h := hr e rfl
    subst h
    exact Or.inr rfl

/-- C8 (amended): `Key`/`Keys` convert `KeyError` and `TypeError` into
ordinary match failures and `Attr`/`Attrs` convert `AttributeError`, so
those lookup errors never cross the pattern boundary; but an out-of-range
integer index on a sequence raises `IndexError`, which `Key`/`Keys` let
through. -/
theorem key_attr_error_confinement (k : Value) (ks : List Value) (a : String)
    (attrs : List String) (v : Value) :
    okFailOrIndex (patmat.Key k v) ∧ okFailOrIndex (patmat.Keys ks v)
    ∧ okOrFail (patmat.Attr a v) ∧ okOrFail (patmat.Attrs attrs v) := by
  refine ⟨?_, ?_, ?_, ?_⟩
  · exact match_except_key_shape _ (getitem_errIn v k)
  · exact match_except_key_shape _ (errIn_map _ _ _ (getitems_errIn v ks))
  · exact match_except_attr_shape _ (getattr_errIn v a)
  · exact match_except_attr_shape _ (errIn_map _ _ _ (getattrs_errIn v attrs))

/-- C8 (counterexample): `Key(1)` on the one-element list `[0]` leaks the
underlying `IndexError` past the pattern boundary instead of signalling an
ordinary match failure. -/
theorem indexerror_escapes_cex :
    patmat.Key (Value.int 1) (Value.list [Value.int 0]) = .error .indexError
    ∧ (Except.error PyError.indexError : Except PyError Value)
        ≠ .error .matchFailure :=
  ⟨rfl, fun h => PyError.noConfusion (Except.error.inj h)⟩

/-- C9 (amended): dispatch decides whether a pattern application matched by
the truthiness of the value `__match__` returned: the positional test
yields exactly `truthy v`, and an entry whose pattern succeeded with a
falsy derived value is skipped as a non-match. -/
theorem truthiness_decides_match {σ : Type} (dispatcher : σ → PatObj) (name : String)
    (p : σ) (a : Value) (v : Value) (args2 : List Value)
    (kwargs : List (String × Value)) (f : PyFunc)
    (rest : List (multimethods.MKey σ × PyFunc))
    (h : dispatcher p a = .ok v) :
    multimethods.posMatch dispatcher [(a, p)] = .ok (truthy v)
    ∧ (truthy v = false →
        multimethods.dispatch dispatcher name ((([p], []), f) :: rest) (a :: args2) kwargs
          = multimethods.dispatch dispatcher name rest (a :: args2) kwargs) := by
  have hpos : multimethods.posMatch dispatcher [(a, p)] = .ok (truthy v) := by
    cases htv : truthy v <;>
      simp [multimethods.posMatch, multimethods.ismatch, h, htv, except_bind_ok,
        except_pure_eq]
  refine ⟨hpos, ?_⟩
  intro hf
  have hz : (a :: args2).zip [p] = [(a, p)] := by simp [List.zip]
  have htry : multimethods.tryEntry dispatcher (a :: args2) kwargs
      ([p], ([] : List (String × σ))) = .ok false := by
    simp [multimethods.tryEntry, hz, hpos, hf, except_bind_ok, except_pure_eq]
  simp [multimethods.dispatch, dispatchEntry_cons, htry, except_bind_ok]

/-- Witness for C9: the intended-wildcard predicate succeeds with `None` on
the argument `7`, the positional test evaluates to false, and the sole
entry is skipped, leaving the registry walk of the remaining (empty)
entries. -/
theorem truthiness_decides_match_witness :
    multimethods.posMatch id [(Value.int 7, pNone)] = .ok (truthy Value.none)
    ∧ multimethods.dispatch id "w" [(([pNone], []), fConst 3)] [Value.int 7] []
      = multimethods.dispatch id "w" [] [Value.int 7] [] := by
  have h := truthiness_decides_match id "w" pNone (Value.int 7) Value.none [] [] (fConst 3) [] rfl
  exact ⟨h.1, h.2 rfl⟩

/-- C9 (counterexample): a pattern that succeeds with the falsy derived
value `None` does not count as matching: the call raises
`DispatchFailure` although its only entry's pattern succeeded. -/
theorem falsy_success_skipped_cex :
    pNone (Value.int 7) = .ok Value.none
    ∧ multimethods.call id "g" [(([pNone], []), fConst 3)] [Value.int 7] []
      = .error (.dispatchFailure "g" [Value.int 7] []) :=
  ⟨rfl, rfl⟩

theorem tok_ne_consT_self (x y : multimethods.Tok) : x ≠ multimethods.Tok.consT x y := by
  intro h
  have hs := congrArg sizeOf h
  simp [multimethods.Tok.consT.sizeOf_spec] at hs
  omega

/-- C10: `get_method(specs)` can never find anything it was asked for: the
registry's keys are `(specs, kwspecs)` pairs while the lookup key is the
bare specs tuple, and a tuple can never equal the pair having it as first
component. In particular, registering under positional specs `S` with no
keyword specs and looking `S` up reports absent. -/
theorem get_method_always_absent_bug (specs : List multimethods.Tok)
    (kwspecs : List (String × multimethods.Tok)) (f : PyFunc) :
    multimethods.get_method (multimethods.add_method [] specs kwspecs f) specs
      = Option.none := by
  have hadd : multimethods.add_method ([] : List (multimethods.MKey multimethods.Tok × PyFunc))
      specs kwspecs f = [((specs, multimethods.sortKw kwspecs), f)] := by
    simp [multimethods.add_method]
  have hne2 : multimethods.toTup specs
      ≠ multimethods.keyTok (specs, multimethods.sortKw kwspecs) := by
    cases specs with
    | nil => simp [multimethods.toTup, multimethods.keyTok]
    | cons s rest =>
      intro h
      simp only [multimethods.toTup, multimethods.keyTok, List.foldr,
        multimethods.Tok.consT.injEq] at h
      exact tok_ne_consT_self s _ h.1
  have hne : (multimethods.toTup specs
      == multimethods.keyTok (specs, multimethods.sortKw kwspecs)) = false := by
    simp [hne2]
  rw [hadd]
  simp [multimethods.get_method, List.find?, hne]
